import Mathlib

/-!
Verification development for the season-map momentum widget.

The repository contains several revisions of one client-side script.  The
revision in `src/season_map_momentum.js` (top of file, "Option B") reads
3 periods of 4 scored and 4 conceded counts from a browser key-value store
or from page content, builds 12 window values (scored − conceded), maps
them to minutes via `BUCKET_MINUTES`, and renders an area chart.  A second
revision in the same file reads buckets reversed to chronological order and
uses the ascending minute set `WINDOW_MINUTES`.  The revision in
`src/unnamed/part_000` scatters the 12 differences onto a 61-slot
per-minute array, smooths it with a 3-tap kernel and clamps the result.

Numbers: all score counts are integers, embedded as `Int`.  The smoothing
kernel weights 0.25/0.5/0.25 are dyadic rationals that are exact in the
source's binary floating point on the integer-valued inputs of interest;
they are embedded as `ℚ`.  JavaScript numeric-text coercion
(`Number(text) || 0`) is embedded as decimal-integer parsing with a zero
default, matching the source's zero-default policy for non-numeric text.
All embedded functions are total, which models the source's guarantee that
no exception escapes the reader or transformer.
-/

namespace SeasonMomentum

/-- One period of the data model: 4 scored and 4 conceded bucket counts
(lists may be shorter in malformed inputs; accessors default to 0,
mirroring the JS `period.scored[b] || 0`). -/
structure Period where
  scored : List Int
  conceded : List Int
  deriving DecidableEq, Repr

/-- The zero-filled period `{ scored:[0,0,0,0], conceded:[0,0,0,0] }` used
throughout the source as the fallback. -/
def zeroPeriod : Period := ⟨[0, 0, 0, 0], [0, 0, 0, 0]⟩

/-- The (period, bucket) index pairs visited by the nested loops
`for (p = 0; p < 3; p++) for (b = 0; b < 4; b++)` in source order. -/
def pbPairs : List (Nat × Nat) :=
  [(0,0),(0,1),(0,2),(0,3),(1,0),(1,1),(1,2),(1,3),(2,0),(2,1),(2,2),(2,3)]

/-- `periods[p] || { scored:[0,0,0,0], conceded:[0,0,0,0] }` from the source:
period access with zero-filled default. -/
def periodAt (periods : List Period) (p : Nat) : Period :=
  periods.getD p zeroPeriod

/-- The loop body of `build12Values`: `s - c` where
`s = Number(period.scored[b] || 0) || 0` and likewise for `c`.  On integer
entries the JS coercion is the identity (with missing entries read as 0),
so this is `getD b 0` on both rows. -/
def diffAt (periods : List Period) (p b : Nat) : Int :=
  (periodAt periods p).scored.getD b 0 - (periodAt periods p).conceded.getD b 0

/-- `build12Values` from `src/season_map_momentum.js` lines 132-143 (the
identical function also appears in the chronological revision): pushes
`scored[b] - conceded[b]` for p = 0..2, b = 0..3 in that order. -/
def build12Values (periods : List Period) : List Int :=
  pbPairs.map (fun q => diffAt periods q.1 q.2)

/-- C1: for every input of exactly 3 periods, each with 4 scored and 4
conceded integer entries, `build12Values` returns exactly 12 values, and
the value at position `4*p + b` equals `scored[p][b] − conceded[p][b]` for
every period index p < 3 and bucket index b < 4. -/
theorem build12Values_correct (periods : List Period)
    (h3 : periods.length = 3)
    (hw : ∀ q ∈ periods, q.scored.length = 4 ∧ q.conceded.length = 4)
    (p b : Nat) (hp : p < 3) (hb : b < 4) :
    (build12Values periods).length = 12 ∧
    (build12Values periods).getD (4 * p + b) 0 =
      (periodAt periods p).scored.getD b 0 -
        (periodAt periods p).conceded.getD b 0 := by
  refine ⟨rfl, ?_⟩
  interval_cases p <;> interval_cases b <;> rfl

/-- Witness for C1 at a concrete wellformed input. -/
theorem build12Values_correct_witness :
    (build12Values [⟨[1,0,0,2],[0,0,1,0]⟩, ⟨[0,0,0,0],[0,0,0,0]⟩,
        ⟨[3,0,0,0],[1,0,0,0]⟩]).length = 12 ∧
    (build12Values [⟨[1,0,0,2],[0,0,1,0]⟩, ⟨[0,0,0,0],[0,0,0,0]⟩,
        ⟨[3,0,0,0],[1,0,0,0]⟩]).getD (4 * 2 + 0) 0 =
      (periodAt [⟨[1,0,0,2],[0,0,1,0]⟩, ⟨[0,0,0,0],[0,0,0,0]⟩,
        ⟨[3,0,0,0],[1,0,0,0]⟩] 2).scored.getD 0 0 -
      (periodAt [⟨[1,0,0,2],[0,0,1,0]⟩, ⟨[0,0,0,0],[0,0,0,0]⟩,
        ⟨[3,0,0,0],[1,0,0,0]⟩] 2).conceded.getD 0 0 :=
  build12Values_correct _ (by decide) (by decide) 2 0 (by decide) (by decide)

/-- `MAX_DISPLAY = 6` from `src/season_map_momentum.js` line 20: the fixed
minimum display floor for the vertical scale. -/
def MAX_DISPLAY : Int := 6

/-- `Math.max(1, ...values12.map(v => Math.abs(v)))` from line 198 of
`src/season_map_momentum.js`: the running maximum of the absolute values,
seeded with 1. -/
def absMax (vals : List Int) : Int :=
  (vals.map (fun v => |v|)).foldl max 1

/-- `maxScale = Math.max(absMax, MAX_DISPLAY)` from line 199 of
`src/season_map_momentum.js`. -/
def maxScale (vals : List Int) : Int :=
  max (absMax vals) MAX_DISPLAY

/-- Folding `max` starting from `max a b` splits off `a`. -/
theorem foldl_max_max (l : List Int) : ∀ a b : Int,
    l.foldl max (max a b) = max a (l.foldl max b) := by
  induction l with
  | nil => intro a b; rfl
  | cons x xs ih =>
    intro a b
    show xs.foldl max (max (max a b) x) = max a (xs.foldl max (max b x))
    rw [max_assoc, ih]

/-- The seed is a lower bound of a `max`-fold. -/
theorem le_foldl_max (l : List Int) : ∀ a : Int, a ≤ l.foldl max a := by
  induction l with
  | nil => intro a; exact le_refl a
  | cons x xs ih =>
    intro a
    exact le_trans (le_max_left a x) (ih (max a x))

/-- C2: for every list of 12 window values, the display scale equals
`max(1, max(|value|), minimumDisplayFloor)` with the floor fixed at 6, is
always ≥ 1 and ≥ 6, and equals 6 on all-zero input. -/
theorem maxScale_spec (vals : List Int) (h : vals.length = 12) :
    maxScale vals = max (max 1 ((vals.map (fun v => |v|)).foldl max 0)) MAX_DISPLAY ∧
    1 ≤ maxScale vals ∧
    MAX_DISPLAY ≤ maxScale vals ∧
    maxScale (List.replicate 12 0) = 6 := by
  refine ⟨?_, ?_, ?_, by decide⟩
  · have key : absMax vals = max 1 ((vals.map (fun v => |v|)).foldl max 0) := by
      have h2 := foldl_max_max (vals.map (fun v => |v|)) 1 0
      rw [show max (1 : Int) 0 = 1 from by decide] at h2
      exact h2
    rw [maxScale, key]
  · exact le_trans (le_foldl_max _ 1) (le_max_left _ _)
  · exact le_max_right _ _

/-- Witness for C2 at a concrete 12-value input. -/
theorem maxScale_spec_witness :
    maxScale [1,0,-1,2,0,0,0,0,2,0,0,0] =
      max (max 1 (([1,0,-1,2,0,0,0,0,2,0,0,0].map (fun v => |v|)).foldl max 0))
        MAX_DISPLAY ∧
    1 ≤ maxScale [1,0,-1,2,0,0,0,0,2,0,0,0] ∧
    MAX_DISPLAY ≤ maxScale [1,0,-1,2,0,0,0,0,2,0,0,0] ∧
    maxScale (List.replicate 12 0) = 6 :=
  maxScale_spec [1,0,-1,2,0,0,0,0,2,0,0,0] (by decide)

/-- `BUCKET_MINUTES` from `src/season_map_momentum.js` line 24: the Option-B
minute for UI bucket index i (i = 4*p + b, buckets read in countdown
order). -/
def BUCKET_MINUTES : List Nat :=
  [17, 12, 7, 2, 37, 32, 27, 22, 57, 52, 47, 42]

/-- The `mid` fields of `BUCKET_LABELS` in `src/unnamed/part_000` lines
14-19: per-period minute offsets for UI buckets 19-15, 14-10, 9-5, 4-0. -/
def bucketMids : List Nat := [17, 12, 7, 2]

/-- `Math.max(0, Math.min(60, Math.round(p * 20 + midLocal)))` from
`src/unnamed/part_000` lines 103-107 (`Math.round` is the identity on these
integer minutes). -/
def minuteIdx (p b : Nat) : Nat :=
  max 0 (min 60 (20 * p + bucketMids.getD b 0))

/-- C6: in the Option-B revision the minute assigned to period p, UI bucket
b is `20*p + m_b` with `(m_0,m_1,m_2,m_3) = (17,12,7,2)`, both in the
`BUCKET_MINUTES` table and in the spikes revision's scatter index, and every
assigned minute lies in [0, 60]. -/
theorem bucket_minutes_optionB (p b : Nat) (hp : p < 3) (hb : b < 4) :
    BUCKET_MINUTES.getD (4 * p + b) 0 = 20 * p + bucketMids.getD b 0 ∧
    minuteIdx p b = 20 * p + bucketMids.getD b 0 ∧
    BUCKET_MINUTES.getD (4 * p + b) 0 ≤ 60 := by
  have h : ∀ p2 < 3, ∀ b2 < 4,
      BUCKET_MINUTES.getD (4 * p2 + b2) 0 = 20 * p2 + bucketMids.getD b2 0 ∧
      minuteIdx p2 b2 = 20 * p2 + bucketMids.getD b2 0 ∧
      BUCKET_MINUTES.getD (4 * p2 + b2) 0 ≤ 60 := by decide
  exact h p hp b hb

/-- Witness for C6 at p = 1, b = 2. -/
theorem bucket_minutes_optionB_witness :
    BUCKET_MINUTES.getD (4 * 1 + 2) 0 = 20 * 1 + bucketMids.getD 2 0 ∧
    minuteIdx 1 2 = 20 * 1 + bucketMids.getD 2 0 ∧
    BUCKET_MINUTES.getD (4 * 1 + 2) 0 ≤ 60 :=
  bucket_minutes_optionB 1 2 (by decide) (by decide)

/-- The point construction of `renderSeasonMomentumGraphic` lines 202-207:
`values12.map((v, i) => ({ minute: BUCKET_MINUTES[i], v }))`, keeping the
(minute, value) payload.  Since `build12Values` always returns exactly 12
values, the JS map-with-index is embedded as indexing over `range 12`. -/
def pointsOf (periods : List Period) : List (Nat × Int) :=
  (List.range 12).map
    (fun i => (BUCKET_MINUTES.getD i 0, (build12Values periods).getD i 0))

/-- Negating every scored and conceded entry of every period. -/
def negPeriods (periods : List Period) : List Period :=
  periods.map (fun q => ⟨q.scored.map (fun v => -v), q.conceded.map (fun v => -v)⟩)

/-- Reading a bucket from a negated row gives the negated bucket value
(including the missing-entry default, since -0 = 0). -/
theorem getD_map_neg (l : List Int) (b : Nat) :
    (l.map (fun v => -v)).getD b 0 = -(l.getD b 0) := by
  induction l generalizing b with
  | nil => simp
  | cons x xs ih =>
    cases b with
    | zero => rfl
    | succ n => simpa using ih n

/-- Period access commutes with entrywise negation (the zero-filled default
period is its own negation). -/
theorem periodAt_neg (periods : List Period) (p : Nat) :
    periodAt (negPeriods periods) p =
      ⟨(periodAt periods p).scored.map (fun v => -v),
       (periodAt periods p).conceded.map (fun v => -v)⟩ := by
  induction periods generalizing p with
  | nil => cases p <;> rfl
  | cons q qs ih =>
    cases p with
    | zero => rfl
    | succ n => exact ih n

/-- A window difference of the negated input is the negated window
difference. -/
theorem diffAt_neg (periods : List Period) (p b : Nat) :
    diffAt (negPeriods periods) p b = -diffAt periods p b := by
  rw [diffAt, diffAt, periodAt_neg]
  dsimp only
  rw [getD_map_neg, getD_map_neg]
  ring

/-- C8: replacing every scored and conceded entry by its negation negates
every one of the 12 window values and leaves every assigned minute
coordinate unchanged. -/
theorem momentum_neg_symmetry (periods : List Period) :
    pointsOf (negPeriods periods) =
      (pointsOf periods).map (fun q => (q.1, -q.2)) ∧
    (pointsOf (negPeriods periods)).map Prod.fst =
      (pointsOf periods).map Prod.fst := by
  have h12 : List.range 12 = [0,1,2,3,4,5,6,7,8,9,10,11] := rfl
  constructor
  · simp [pointsOf, h12, build12Values, pbPairs, diffAt_neg]
  · simp [pointsOf, h12, build12Values, pbPairs, diffAt_neg]

/-- Lexicographic order on character lists by code point: the comparison
used by the JS default `Array.prototype.sort()` on strings.  (Implemented
by structural recursion so that concrete comparisons evaluate.) -/
def lexLe : List Char → List Char → Bool
  | [], _ => true
  | _ :: _, [] => false
  | a :: as, b :: bs =>
    if a.toNat < b.toNat then true
    else if b.toNat < a.toNat then false
    else lexLe as bs

/-- Decimal digit run to a natural number; `none` on empty input or any
non-digit, modelling JS `Number` returning NaN on non-numeric text. -/
def natOfChars (ds : List Char) : Option Nat :=
  if ds.isEmpty then none
  else ds.foldl (fun acc c => acc.bind (fun n =>
    if 48 ≤ c.toNat ∧ c.toNat ≤ 57 then some (n * 10 + (c.toNat - 48)) else none))
    (some 0)

/-- Helper for rendering a natural number in decimal (fuel-based structural
recursion so that concrete values evaluate). -/
def natToStrAux : Nat → Nat → List Char
  | 0, _ => []
  | fuel + 1, n =>
    if n < 10 then [Char.ofNat (48 + n)]
    else natToStrAux fuel (n / 10) ++ [Char.ofNat (48 + n % 10)]

/-- Decimal rendering of a natural number, as JS `String(i)` produces for
array indices. -/
def natToStr (n : Nat) : String := ⟨natToStrAux (n + 1) n⟩

/-- The coercion `Number(text || 0) || 0` applied to displayed control text
and JSON string entries: optional leading minus then decimal digits; any
other text (empty, non-numeric) coerces to 0.  Fractional or padded numeric
text is also coerced to 0 here; the data model carries integer counts and
no claim depends on those cases. -/
def btnNum (s : String) : Int :=
  match s.data with
  | '-' :: rest =>
    match natOfChars rest with
    | some n => -(n : Int)
    | none => 0
  | ds =>
    match natOfChars ds with
    | some n => (n : Int)
    | none => 0

/-- JSON values as produced by `JSON.parse` (numbers restricted to the
integers of the data model). -/
inductive Json where
  | null : Json
  | bool : Bool → Json
  | num : Int → Json
  | str : String → Json
  | arr : List Json → Json
  | obj : List (String × Json) → Json
  deriving Repr

/-- The coercion `Number(v || 0) || 0` applied to a JSON entry: numbers map
to themselves, numeric strings to their value, `true` to 1, and every other
value (null, false, non-numeric string, nested array/object) to 0.  (JS
`Number` on an array or object stringifies first; that corner is modelled
as 0 and no claim depends on it.) -/
def jsonToNum : Json → Int
  | Json.num n => n
  | Json.str s => btnNum s
  | Json.bool true => 1
  | _ => 0

/-- The per-key body of `readFromLocalStorageFallback` lines 48-68: an
array of ≥ 8 entries splits 4/4 into scored/conceded, an array of 4-7
entries gives scored only, a nested mapping is read at string keys "0".."7"
and split 4/4, and anything else is zero-filled. -/
def periodOfVal : Json → Period
  | Json.arr arr =>
    if arr.length ≥ 8 then
      ⟨(arr.take 4).map jsonToNum, ((arr.drop 4).take 4).map jsonToNum⟩
    else if arr.length ≥ 4 then
      ⟨(arr.take 4).map jsonToNum, [0, 0, 0, 0]⟩
    else zeroPeriod
  | Json.obj o =>
    ⟨((List.range 8).map
        (fun i => jsonToNum ((o.lookup (natToStr i)).getD Json.null))).take 4,
     (((List.range 8).map
        (fun i => jsonToNum ((o.lookup (natToStr i)).getD Json.null))).drop 4).take 4⟩
  | _ => zeroPeriod

/-- The guard `if (!obj || typeof obj !== 'object') return null` on line 43:
in JS both mappings and arrays have `typeof === 'object'` and are truthy;
`null`, booleans, numbers and strings all fail the guard (null is falsy,
the rest have a different `typeof`). -/
def jsIsObjectLike : Json → Bool
  | Json.arr _ => true
  | Json.obj _ => true
  | _ => false

/-- `Object.keys(obj)` of line 44: for an array, the index strings in
order; for a mapping, its keys (`JSON.parse` yields distinct keys; `eraseDups`
keeps the model total on arbitrary key lists). -/
def jsKeys : Json → List String
  | Json.arr a => (List.range a.length).map natToStr
  | Json.obj o => (o.map Prod.fst).eraseDups
  | _ => []

/-- Property read `obj[key]` for the values enumerated by `jsKeys`:
array index lookup through the decimal key, or mapping lookup; absent
properties read as `null` (JS `undefined`, coerced to 0 downstream). -/
def jsGet : Json → String → Json
  | Json.arr a, k => ((natOfChars k.data).bind (fun i => a[i]?)).getD Json.null
  | Json.obj o, k => (o.lookup k).getD Json.null
  | _, _ => Json.null

/-- Insertion step of the sort on key strings. -/
def insertKey (x : String) : List String → List String
  | [] => [x]
  | y :: ys => if lexLe x.data y.data then x :: y :: ys else y :: insertKey x ys

/-- `keys.sort()` of line 44: the JS default sort orders strings
lexicographically by code point; insertion sort realises that order (the
keys fed to it are distinct, so the order is the unique sorted one). -/
def sortKeys (l : List String) : List String := l.foldr insertKey []

/-- The padding loop `while (periods.length < 3) periods.push(zero)`
followed by `periods.slice(0, 3)`. -/
def padTo3 (ps : List Period) : List Period :=
  (ps ++ List.replicate (3 - ps.length) zeroPeriod).take 3

/-- `readFromLocalStorageFallback` from `src/season_map_momentum.js` lines
38-80.  The store state is embedded as `Option (Option Json)`: `none` when
neither storage key holds a raw string, `some none` when a raw string is
present but `JSON.parse` throws (the catch block returns null), and
`some (some j)` when it parses to `j`.  The key loop stops once 3 periods
are collected, i.e. it consumes the first 3 sorted keys. -/
def readFromLocalStorageFallback (raw : Option (Option Json)) :
    Option (List Period) :=
  match raw with
  | none => none
  | some none => none
  | some (some j) =>
    if jsIsObjectLike j then
      some (padTo3 (((sortKeys (jsKeys j)).take 3).map (fun k => periodOfVal (jsGet j k))))
    else none

/-- `hasNonZero` from lines 115-117: some period has a non-zero entry in
`scored.concat(conceded)`. -/
def hasNonZero (periods : List Period) : Bool :=
  periods.any (fun q => (q.scored ++ q.conceded).any (fun v => v != 0))

/-- The JS test `src && hasNonZero(src)` on an optional read result. -/
def optHasNonZero : Option (List Period) → Bool
  | some l => hasNonZero l
  | none => false

/-- One `.period` element of the page-content source: button texts of the
top row, the bottom row, and of all `.time-btn` controls in the element. -/
structure PeriodEl where
  top : List String
  bottom : List String
  all : List String
  deriving Repr

/-- The per-period body of `readPeriodsFromDOM` lines 90-109: both rows
with ≥ 4 controls give scored/conceded from the rows; otherwise ≥ 8 flat
controls split 4/4, ≥ 4 give scored only, fewer give all zeros. -/
def readPeriodEl (pEl : PeriodEl) : Period :=
  if pEl.top.length ≥ 4 ∧ pEl.bottom.length ≥ 4 then
    ⟨(pEl.top.take 4).map btnNum, (pEl.bottom.take 4).map btnNum⟩
  else if pEl.all.length ≥ 8 then
    ⟨(pEl.all.take 4).map btnNum, ((pEl.all.drop 4).take 4).map btnNum⟩
  else if pEl.all.length ≥ 4 then
    ⟨(pEl.all.take 4).map btnNum, [0, 0, 0, 0]⟩
  else zeroPeriod

/-- `readPeriodsFromDOM` from lines 83-113: `none` when the time box or its
period elements are missing; otherwise the first 3 period elements are
read and the result padded to exactly 3 periods.  The page state is
embedded as `Option (List PeriodEl)` (`none` = no time-box element). -/
def readPeriodsFromDOM (box : Option (List PeriodEl)) : Option (List Period) :=
  match box with
  | none => none
  | some els =>
    if els.isEmpty then none
    else some (padTo3 ((els.take 3).map readPeriodEl))

/-- `readPeriods` from lines 120-129: prefer the store result when it has a
non-zero value, then the page result when it has a non-zero value, then
the page result if present, then the store result if present, else 3
zero-filled periods. -/
def readPeriods (ls dom : Option (List Period)) : List Period :=
  if optHasNonZero ls then ls.getD []
  else if optHasNonZero dom then dom.getD []
  else if dom.isSome then dom.getD []
  else if ls.isSome then ls.getD []
  else [zeroPeriod, zeroPeriod, zeroPeriod]

/-- C3: the unified reader returns the store periods when they contain a
non-zero value; otherwise the page-content periods whenever they
structurally exist (whether or not they contain a non-zero value); else the
store periods when only they exist; else 3 zero-filled periods. -/
theorem readPeriods_selection (ls dom : Option (List Period)) :
    (∀ l, ls = some l → hasNonZero l = true → readPeriods ls dom = l) ∧
    (∀ d, optHasNonZero ls = false → dom = some d → readPeriods ls dom = d) ∧
    (∀ l, ls = some l → hasNonZero l = false → dom = none →
        readPeriods ls dom = l) ∧
    (ls = none → dom = none →
        readPeriods ls dom = [zeroPeriod, zeroPeriod, zeroPeriod]) := by
  refine ⟨?_, ?_, ?_, ?_⟩
  · intro l hl hnz
    subst hl
    simp [readPeriods, optHasNonZero, hnz]
  · intro d hls hd
    subst hd
    simp [readPeriods, hls, show ∀ l, optHasNonZero (some l) = hasNonZero l
      from fun _ => rfl]
  · intro l hl hnz hdom
    subst hl; subst hdom
    simp [readPeriods, optHasNonZero, hnz]
  · intro h1 h2
    subst h1; subst h2
    rfl

/-- Witness for C3: a store read with a non-zero entry wins. -/
theorem readPeriods_selection_witness :
    readPeriods (some [⟨[1,0,0,0],[0,0,0,0]⟩]) none = [⟨[1,0,0,0],[0,0,0,0]⟩] :=
  (readPeriods_selection (some [⟨[1,0,0,0],[0,0,0,0]⟩]) none).1 _ rfl (by decide)

/-- Counterexample to C4 as stated: a raw store string parsing to the JSON
array `[1,2,3]` has a top-level value that is not a JSON object, yet the
store reader does not signal "no data" — it returns a zero-filled 3-period
result (in JS an array passes the `typeof obj === 'object'` guard). -/
theorem store_reader_array_counterexample :
    readFromLocalStorageFallback
        (some (some (Json.arr [Json.num 1, Json.num 2, Json.num 3]))) =
      some [zeroPeriod, zeroPeriod, zeroPeriod] ∧
    readFromLocalStorageFallback
        (some (some (Json.arr [Json.num 1, Json.num 2, Json.num 3]))) ≠ none := by
  refine ⟨by decide, by decide⟩

/-- C4 (amended): for every raw store string that is malformed JSON, and for
every parsed top-level value that is neither a JSON object nor a JSON array,
the store reader returns the "no data" signal (`none`), never a zero-filled
result (a top-level array is treated like an object keyed by its indices).
Totality of the embedded reader models the absence of escaping
exceptions. -/
theorem store_reader_malformed (j : Json) (hj : jsIsObjectLike j = false) :
    readFromLocalStorageFallback none = none ∧
    readFromLocalStorageFallback (some none) = none ∧
    readFromLocalStorageFallback (some (some j)) = none := by
  refine ⟨rfl, rfl, ?_⟩
  simp [readFromLocalStorageFallback, hj]

/-- Witness for the amended C4 at the non-object top-level value 7. -/
theorem store_reader_malformed_witness :
    readFromLocalStorageFallback none = none ∧
    readFromLocalStorageFallback (some none) = none ∧
    readFromLocalStorageFallback (some (some (Json.num 7))) = none :=
  store_reader_malformed (Json.num 7) rfl

/-- Padding a short list yields exactly 3 periods. -/
theorem padTo3_length (l : List Period) (h : l.length ≤ 3) :
    (padTo3 l).length = 3 := by
  simp [padTo3]
  omega

/-- Every member of a padded list is an original member or the zero-filled
period. -/
theorem mem_padTo3 {l : List Period} {q : Period} (hq : q ∈ padTo3 l) :
    q ∈ l ∨ q = zeroPeriod := by
  rw [padTo3] at hq
  rcases List.mem_append.mp (List.mem_of_mem_take hq) with h | h
  · exact Or.inl h
  · exact Or.inr (List.eq_of_mem_replicate h)

/-- Positions beyond the original list read as the zero-filled period after
padding. -/
theorem padTo3_getD_pad (l : List Period) (i : Nat) (hi : l.length ≤ i)
    (h3 : i < 3) : (padTo3 l).getD i zeroPeriod = zeroPeriod := by
  rw [List.getD_eq_getElem?_getD, padTo3, List.getElem?_take]
  simp only [h3, if_true]
  rw [List.getElem?_append_right hi, List.getElem?_replicate]
  have hlt : i - l.length < 3 - l.length := by omega
  simp [hlt]

/-- Every period produced from a page period-group has exactly 4 scored and
4 conceded entries, whatever the row lengths. -/
theorem readPeriodEl_wf (pEl : PeriodEl) :
    (readPeriodEl pEl).scored.length = 4 ∧
    (readPeriodEl pEl).conceded.length = 4 := by
  unfold readPeriodEl
  split_ifs with h1 h2 h3 <;> refine ⟨?_, ?_⟩ <;> simp [zeroPeriod] <;> omega

/-- C5: whenever the page reader returns a result — in particular for inputs
with fewer than 3 period groups or fewer than 4 controls per row — the
result has exactly 3 periods of exactly 4 scored and 4 conceded entries,
every period beyond the groups actually present is zero-filled, and the
transformer yields exactly 12 window values on every input; all embedded
operations are total, modelling the absence of out-of-range accesses and
thrown errors. -/
theorem dom_reader_zero_fill :
    (∀ (box : List PeriodEl) (ps : List Period),
        readPeriodsFromDOM (some box) = some ps →
        ps.length = 3 ∧
        (∀ q ∈ ps, q.scored.length = 4 ∧ q.conceded.length = 4) ∧
        (∀ i, box.length ≤ i → i < 3 → ps.getD i zeroPeriod = zeroPeriod)) ∧
    (∀ qs : List Period, (build12Values qs).length = 12) := by
  constructor
  · intro box ps h
    cases hb : box.isEmpty with
    | true => simp [readPeriodsFromDOM, hb] at h
    | false =>
      simp only [readPeriodsFromDOM, hb, Bool.false_eq_true, if_false,
        Option.some.injEq] at h
      have hXlen : ((box.take 3).map readPeriodEl).length ≤ 3 := by
        simp
      refine ⟨?_, ?_, ?_⟩
      · rw [← h]; exact padTo3_length _ hXlen
      · intro q hq
        rw [← h] at hq
        rcases mem_padTo3 hq with hm | hz
        · obtain ⟨pEl, _, rfl⟩ := List.mem_map.mp hm
          exact readPeriodEl_wf pEl
        · subst hz; exact ⟨rfl, rfl⟩
      · intro i hi h3i
        rw [← h]
        apply padTo3_getD_pad _ _ _ h3i
        have : ((box.take 3).map readPeriodEl).length = min 3 box.length := by
          simp
        omega
  · intro qs; rfl

/-- Witness for C5 at a single short period group (one control, short
rows): the reader pads to 3 zero-filled periods. -/
theorem dom_reader_zero_fill_witness :
    ([zeroPeriod, zeroPeriod, zeroPeriod] : List Period).length = 3 ∧
    (∀ q ∈ ([zeroPeriod, zeroPeriod, zeroPeriod] : List Period),
        q.scored.length = 4 ∧ q.conceded.length = 4) ∧
    (∀ i, ([(⟨["1"], [], []⟩ : PeriodEl)] : List PeriodEl).length ≤ i → i < 3 →
        ([zeroPeriod, zeroPeriod, zeroPeriod] : List Period).getD i zeroPeriod =
          zeroPeriod) :=
  dom_reader_zero_fill.1 [⟨["1"], [], []⟩] [zeroPeriod, zeroPeriod, zeroPeriod]
    (by decide)

/-- The mutable browser state the readers touch: the raw store content and
the page time box.  The source's read functions perform no writes to
either, which the embedding reflects by returning the state unchanged. -/
structure World where
  store : Option (Option Json)
  dom : Option (List PeriodEl)

/-- One full read-transform cycle (`readPeriods` followed by
`build12Values`) as a state-passing function: the 12 window values together
with the resulting state. -/
def readTransformCycle (w : World) : List Int × World :=
  (build12Values (readPeriods (readFromLocalStorageFallback w.store)
      (readPeriodsFromDOM w.dom)),
   w)

/-- C9: over any fixed state of the two input sources, running the
read-transform cycle twice yields identical 12-value output both times, and
each run leaves the state untouched (no mutable state carried between
calls). -/
theorem read_transform_idempotent (w : World) :
    (readTransformCycle (readTransformCycle w).2).1 = (readTransformCycle w).1 ∧
    (readTransformCycle w).2 = w :=
  ⟨rfl, rfl⟩

/-- A list of length 4 is a literal 4-element list. -/
theorem length_eq_four {α : Type*} {l : List α} :
    l.length = 4 ↔ ∃ a b c d, l = [a, b, c, d] :=
  ⟨fun _ => let [a, b, c, d] := l; ⟨a, b, c, d, rfl⟩,
   fun ⟨_, _, _, _, e⟩ => e ▸ rfl⟩

/-- `WINDOW_MINUTES` of the chronological revision (second script in
`src/season_map_momentum.js`, line 431): ascending minutes for the 12
chronologically ordered windows. -/
def WINDOW_MINUTES : List Nat := [4, 9, 14, 19, 24, 29, 34, 39, 44, 49, 54, 59]

/-- The per-period reversal `scored.slice().reverse()` /
`conceded.slice().reverse()` of `readPeriodsFromTimebox` lines 487-489,
turning UI countdown order into chronological order. -/
def reverseRead (periods : List Period) : List Period :=
  periods.map (fun q => ⟨q.scored.reverse, q.conceded.reverse⟩)

/-- The point list of the chronological revision:
`WINDOW_MINUTES.map((minute, idx) => ... values12[idx] || 0 ...)` applied
to the values of the reversed periods. -/
def chronoPoints (periods : List Period) : List (Nat × Int) :=
  (List.range 12).map (fun i =>
    (WINDOW_MINUTES.getD i 0, (build12Values (reverseRead periods)).getD i 0))

/-- Insertion step of the minute sort. -/
def insertByMinute (x : Nat × Int) :
    List (Nat × Int) → List (Nat × Int)
  | [] => [x]
  | y :: ys => if x.1 ≤ y.1 then x :: y :: ys else y :: insertByMinute x ys

/-- `pts.slice().sort((a, b) => a.minute - b.minute)` of the Option-B
renderer (line 210).  The 12 Option-B minutes are pairwise distinct, so
every comparison sort produces the same, unique ascending order; it is
realised here as an insertion sort. -/
def sortByMinute (l : List (Nat × Int)) : List (Nat × Int) :=
  l.foldr insertByMinute []

set_option maxHeartbeats 2000000 in
/-- C10: on the same 3×(4+4) input read in UI countdown order, the Option-B
points sorted ascending by minute carry exactly the value sequence of the
chronological revision (per period the reversed UI-order differences); the
two revisions differ only in the minute coordinates, {2,7,12,17}+20p versus
{4,9,14,19}+20p. -/
theorem optionB_chrono_refinement (periods : List Period)
    (h3 : periods.length = 3)
    (hw : ∀ q ∈ periods, q.scored.length = 4 ∧ q.conceded.length = 4) :
    (sortByMinute (pointsOf periods)).map Prod.snd =
      (chronoPoints periods).map Prod.snd ∧
    (sortByMinute (pointsOf periods)).map Prod.fst =
      [2, 7, 12, 17, 22, 27, 32, 37, 42, 47, 52, 57] ∧
    (chronoPoints periods).map Prod.fst =
      [4, 9, 14, 19, 24, 29, 34, 39, 44, 49, 54, 59] := by
  obtain ⟨q1, q2, q3, rfl⟩ := List.length_eq_three.mp h3
  obtain ⟨s1, c1⟩ := q1
  obtain ⟨s2, c2⟩ := q2
  obtain ⟨s3, c3⟩ := q3
  have hs1 : s1.length = 4 := (hw ⟨s1, c1⟩ (by simp)).1
  have hc1 : c1.length = 4 := (hw ⟨s1, c1⟩ (by simp)).2
  have hs2 : s2.length = 4 := (hw ⟨s2, c2⟩ (by simp)).1
  have hc2 : c2.length = 4 := (hw ⟨s2, c2⟩ (by simp)).2
  have hs3 : s3.length = 4 := (hw ⟨s3, c3⟩ (by simp)).1
  have hc3 : c3.length = 4 := (hw ⟨s3, c3⟩ (by simp)).2
  obtain ⟨a0, a1, a2, a3, rfl⟩ := length_eq_four.mp hs1
  obtain ⟨b0, b1, b2, b3, rfl⟩ := length_eq_four.mp hc1
  obtain ⟨d0, d1, d2, d3, rfl⟩ := length_eq_four.mp hs2
  obtain ⟨e0, e1, e2, e3, rfl⟩ := length_eq_four.mp hc2
  obtain ⟨f0, f1, f2, f3, rfl⟩ := length_eq_four.mp hs3
  obtain ⟨g0, g1, g2, g3, rfl⟩ := length_eq_four.mp hc3
  exact ⟨rfl, rfl, rfl⟩

/-- Witness for C10 at a concrete wellformed input with distinct values. -/
theorem optionB_chrono_refinement_witness :
    (sortByMinute (pointsOf [⟨[1,2,3,4],[0,0,0,0]⟩, ⟨[0,1,0,2],[1,0,0,0]⟩,
        ⟨[5,0,0,1],[0,0,2,0]⟩])).map Prod.snd =
      (chronoPoints [⟨[1,2,3,4],[0,0,0,0]⟩, ⟨[0,1,0,2],[1,0,0,0]⟩,
        ⟨[5,0,0,1],[0,0,2,0]⟩]).map Prod.snd ∧
    (sortByMinute (pointsOf [⟨[1,2,3,4],[0,0,0,0]⟩, ⟨[0,1,0,2],[1,0,0,0]⟩,
        ⟨[5,0,0,1],[0,0,2,0]⟩])).map Prod.fst =
      [2, 7, 12, 17, 22, 27, 32, 37, 42, 47, 52, 57] ∧
    (chronoPoints [⟨[1,2,3,4],[0,0,0,0]⟩, ⟨[0,1,0,2],[1,0,0,0]⟩,
        ⟨[5,0,0,1],[0,0,2,0]⟩]).map Prod.fst =
      [4, 9, 14, 19, 24, 29, 34, 39, 44, 49, 54, 59] :=
  optionB_chrono_refinement _ (by decide) (by decide)

/-- `MAX_GOALS_DISPLAY = 5` from `src/unnamed/part_000` line 27: the
display floor and clamp bound of the smoothing revision. -/
def MAX_GOALS_DISPLAY : ℚ := 5

/-- The contribution list of the scatter loop in
`buildMomentumFromTimeBoxes` lines 100-109: for each (p, b) in loop order,
the clamped global minute `Math.max(0, Math.min(60, p*20 + mid))` and the
window difference `scored - conceded`.  (The kernel weights below are
dyadic, so the source's double arithmetic is exact and embedded in ℚ.) -/
def scatterUpdates (periods : List Period) : List (Nat × ℚ) :=
  pbPairs.map (fun q => (minuteIdx q.1 q.2, (diffAt periods q.1 q.2 : ℚ)))

/-- One array update `minutes[idx] += value`. -/
def addAt (acc : List ℚ) (u : Nat × ℚ) : List ℚ :=
  acc.set u.1 (acc.getD u.1 0 + u.2)

/-- The scatter stage: `new Array(61).fill(0)` followed by the nested
accumulation loops. -/
def buildMinutes (periods : List Period) : List ℚ :=
  (scatterUpdates periods).foldl addAt (List.replicate 61 0)

/-- One smoothing pass, lines 114-120: `next = cur.slice()` then
`next[i] = cur[i-1]*0.25 + cur[i]*0.5 + cur[i+1]*0.25` for every interior
index `1 ≤ i < cur.length - 1`, reading only from `cur`. -/
def kernelPass (cur : List ℚ) : List ℚ :=
  cur.mapIdx (fun i v =>
    if 1 ≤ i ∧ i + 1 < cur.length then
      cur.getD (i - 1) 0 * (1/4) + v * (1/2) + cur.getD (i + 1) 0 * (1/4)
    else v)

/-- The pass loop `for (pass = 0; pass < smoothPasses; pass++)` with
`smoothPasses = 6`. -/
def smoothLoop : Nat → List ℚ → List ℚ
  | 0, cur => cur
  | n + 1, cur => smoothLoop n (kernelPass cur)

/-- The final clamp `Math.max(-MAX_GOALS_DISPLAY, Math.min(MAX_GOALS_DISPLAY, v))`
of line 122. -/
def clampDisplay (v : ℚ) : ℚ :=
  max (-MAX_GOALS_DISPLAY) (min MAX_GOALS_DISPLAY v)

/-- `buildMomentumFromTimeBoxes` from `src/unnamed/part_000` lines 98-123:
scatter the 12 window differences onto the 61-slot per-minute array, apply
6 smoothing passes, and clamp every slot. -/
def buildMomentumFromTimeBoxes (periods : List Period) : List ℚ :=
  (smoothLoop 6 (buildMinutes periods)).map clampDisplay

/-- The spec's description of one scattered slot: the sum of the window
differences whose representative minute is this slot — each value "added at
its representative minute", slots not otherwise touched remaining 0. -/
def scatterSpecSlot (periods : List Period) (m : Nat) : ℚ :=
  (pbPairs.map (fun q =>
    if minuteIdx q.1 q.2 = m then (diffAt periods q.1 q.2 : ℚ) else 0)).sum

/-- One accumulation step read at any in-range slot. -/
theorem addAt_getD (l : List ℚ) (u : Nat × ℚ) (m : Nat) (hm : m < l.length) :
    (addAt l u).getD m 0 = l.getD m 0 + if u.1 = m then u.2 else 0 := by
  by_cases h : u.1 = m
  · subst h
    rw [addAt, List.getD_eq_getElem?_getD, List.getElem?_set]
    simp [hm, List.getD_eq_getElem?_getD]
  · rw [addAt, List.getD_eq_getElem?_getD, List.getElem?_set]
    simp [h, List.getD_eq_getElem?_getD]

/-- A fold of accumulation steps read at any in-range slot is the initial
slot plus the sum of the contributions landing there. -/
theorem foldl_addAt_getD (ups : List (Nat × ℚ)) : ∀ (init : List ℚ) (m : Nat),
    m < init.length →
    (ups.foldl addAt init).getD m 0 =
      init.getD m 0 + (ups.map (fun u => if u.1 = m then u.2 else 0)).sum := by
  induction ups with
  | nil => intro init m hm; simp
  | cons u us ih =>
    intro init m hm
    rw [List.foldl_cons,
      ih (addAt init u) m (by rw [addAt, List.length_set]; exact hm),
      addAt_getD init u m hm, List.map_cons, List.sum_cons]
    ring

/-- The smoothing loop is iteration of the kernel pass. -/
theorem smoothLoop_eq_iterate (n : Nat) (cur : List ℚ) :
    smoothLoop n cur = kernelPass^[n] cur := by
  induction n generalizing cur with
  | zero => rfl
  | succ k ih =>
    rw [smoothLoop, ih, Function.iterate_succ_apply]

/-- A kernel pass preserves the slot count. -/
theorem kernelPass_length (cur : List ℚ) :
    (kernelPass cur).length = cur.length := by
  rw [kernelPass, List.length_mapIdx]

/-- A kernel pass read at any in-range slot: the 3-tap average on interior
slots, the old value on the boundary slots. -/
theorem kernelPass_getD (cur : List ℚ) (i : Nat) (hi : i < cur.length) :
    (kernelPass cur).getD i 0 =
      if 1 ≤ i ∧ i + 1 < cur.length then
        cur.getD (i - 1) 0 * (1/4) + cur.getD i 0 * (1/2) +
          cur.getD (i + 1) 0 * (1/4)
      else cur.getD i 0 := by
  rw [kernelPass, List.getD_eq_getElem?_getD, List.getElem?_mapIdx,
    List.getElem?_eq_getElem hi]
  by_cases h : 1 ≤ i ∧ i + 1 < cur.length
  · simp [h, List.getD_eq_getElem?_getD, List.getElem?_eq_getElem hi]
  · simp [h, List.getD_eq_getElem?_getD, List.getElem?_eq_getElem hi]

/-- The scatter array has 61 slots. -/
theorem buildMinutes_length (periods : List Period) :
    (buildMinutes periods).length = 61 := by
  rw [buildMinutes]
  have h : ∀ (ups : List (Nat × ℚ)) (init : List ℚ),
      (ups.foldl addAt init).length = init.length := by
    intro ups
    induction ups with
    | nil => intro init; rfl
    | cons u us ih =>
      intro init
      rw [List.foldl_cons, ih, addAt, List.length_set]
  rw [h, List.length_replicate]

/-- C7: the smoothing transformer scatters the 12 window differences onto a
61-slot per-minute array — slot m holds exactly the sum of the differences
whose representative minute is m, all other slots 0 — then applies exactly
6 iterations of the symmetric 3-tap kernel with weights 0.25/0.5/0.25 to
interior slots only (slots 0 and 60 unchanged by each pass), and finally
clamps every slot to [-MAX_GOALS_DISPLAY, MAX_GOALS_DISPLAY]. -/
theorem momentum_smoothing_spec (periods : List Period) :
    (buildMomentumFromTimeBoxes periods).length = 61 ∧
    buildMomentumFromTimeBoxes periods =
      (kernelPass^[6] (buildMinutes periods)).map clampDisplay ∧
    (∀ m : Nat, m < 61 →
      (buildMinutes periods).getD m 0 = scatterSpecSlot periods m) ∧
    (∀ cur : List ℚ,
      (kernelPass cur).length = cur.length ∧
      (kernelPass cur).getD 0 0 = cur.getD 0 0 ∧
      (∀ i : Nat, i + 1 = cur.length → (kernelPass cur).getD i 0 = cur.getD i 0) ∧
      (∀ i : Nat, 1 ≤ i → i + 1 < cur.length →
        (kernelPass cur).getD i 0 =
          cur.getD (i - 1) 0 * (1/4) + cur.getD i 0 * (1/2) +
            cur.getD (i + 1) 0 * (1/4))) ∧
    (∀ v ∈ buildMomentumFromTimeBoxes periods,
      -MAX_GOALS_DISPLAY ≤ v ∧ v ≤ MAX_GOALS_DISPLAY) := by
  refine ⟨?_, ?_, ?_, ?_, ?_⟩
  · rw [buildMomentumFromTimeBoxes, List.length_map, smoothLoop_eq_iterate]
    have h : ∀ n : Nat, (kernelPass^[n] (buildMinutes periods)).length = 61 := by
      intro n
      induction n with
      | zero => exact buildMinutes_length periods
      | succ k ih =>
        rw [Function.iterate_succ_apply', kernelPass_length, ih]
    exact h 6
  · rw [buildMomentumFromTimeBoxes, smoothLoop_eq_iterate]
  · intro m hm
    rw [buildMinutes, foldl_addAt_getD _ _ _ (by rw [List.length_replicate]; exact hm),
      scatterUpdates, List.map_map, scatterSpecSlot]
    have hz : (List.replicate 61 (0 : ℚ)).getD m 0 = 0 := by
      rw [List.getD_eq_getElem?_getD, List.getElem?_replicate]
      simp [hm]
    rw [hz, zero_add]
    rfl
  · intro cur
    refine ⟨kernelPass_length cur, ?_, ?_, ?_⟩
    · cases cur with
      | nil => rfl
      | cons x xs =>
        rw [kernelPass_getD (x :: xs) 0 (by simp)]
        simp
    · intro i hlen
      rw [kernelPass_getD cur i (by omega)]
      have h : ¬(1 ≤ i ∧ i + 1 < cur.length) := by omega
      simp [h]
    · intro i h1 h2
      rw [kernelPass_getD cur i (by omega)]
      simp [h1, h2]
  · intro v hv
    rw [buildMomentumFromTimeBoxes] at hv
    obtain ⟨w, _, rfl⟩ := List.mem_map.mp hv
    constructor
    · exact le_max_left _ _
    · exact max_le (by norm_num [MAX_GOALS_DISPLAY]) (min_le_left _ _)

/-- Witness for C7 at a concrete input, reading off the scattered slot at
minute 17 and an interior kernel slot. -/
theorem momentum_smoothing_spec_witness :
    (buildMomentumFromTimeBoxes [⟨[2,0,0,0],[0,0,0,0]⟩]).length = 61 ∧
    (buildMinutes [⟨[2,0,0,0],[0,0,0,0]⟩]).getD 17 0 =
      scatterSpecSlot [⟨[2,0,0,0],[0,0,0,0]⟩] 17 ∧
    (kernelPass [1, 2, 3]).getD 1 0 =
      ([1, 2, 3] : List ℚ).getD 0 0 * (1/4) + ([1, 2, 3] : List ℚ).getD 1 0 * (1/2) +
        ([1, 2, 3] : List ℚ).getD 2 0 * (1/4) :=
  ⟨(momentum_smoothing_spec [⟨[2,0,0,0],[0,0,0,0]⟩]).1,
   (momentum_smoothing_spec [⟨[2,0,0,0],[0,0,0,0]⟩]).2.2.1 17 (by decide),
   ((momentum_smoothing_spec [⟨[2,0,0,0],[0,0,0,0]⟩]).2.2.2.1 [1, 2, 3]).2.2.2 1
     (by decide) (by decide)⟩

end SeasonMomentum
